import Mathlib

/-!
Verification of the AI-enhanced multi-agent coffee payment demo.

This file gives a shallow embedding, in Lean 4, of the policy core of the
repository: the weighted rule engine (src/ai/AIDecisionEngine.ts), the
approval agent's daily-spending ledger and the three pipeline stages
(ReceptionAgent / ApprovalAgent / PaymentAgent) together with the
orchestrator (src/agents/AgentOrchestrator.ts), and proves properties of
the embedded code.

Modelling conventions:
- JavaScript numbers are modelled as rationals; timestamps (millisecond
  values produced by Date.now) as integers.
- The several Date.now() calls inside one pipeline run are conflated into
  a single parameter, named now.
- Date#getHours is modelled as the UTC hour of the timestamp.
- String fields whose contents are interpolated at runtime (the human
  readable detail texts) are kept as their constant skeletons; constant
  strings the control flow depends on (error markers such as
  Invalid processing pipeline) are kept verbatim.
- Presentation-only fields of results (summary, suggestions,
  processingTime, timestamp, signatures, wallet addresses, durations) are
  omitted: no claim refers to them.
- External effects are parameters: the settlement transfer outcome, the
  signer (signMessage may reject, which the orchestrator catches), and the
  fetched agent balance.  Agents are modelled after initialization (the
  orchestrator only invokes process on initialized agents).
-/

namespace CoffeeDemo

/-- Outcome of a single reasoning step (ai/types.ts, ReasoningStep.result). -/
inductive StepResult where
  | pass
  | warn
  | fail
deriving DecidableEq, Repr, BEq

/-- User intents (ai/types.ts, UserIntent). -/
inductive UserIntent where
  | buyCoffee
  | urgentOrder
  | bulkOrder
  | cancelOrder
  | repeatOrder
  | customTip
deriving DecidableEq, Repr, BEq

/-- Decision outcomes (ai/types.ts, AIDecision). -/
inductive AIDecision where
  | approve
  | reject
  | confirm
  | delay
deriving DecidableEq, Repr, BEq

/-- Risk levels (ai/types.ts, RiskLevel). -/
inductive RiskLevel where
  | low
  | medium
  | high
  | critical
deriving DecidableEq, Repr, BEq

/-- One reasoning step (ai/types.ts, ReasoningStep). -/
structure ReasoningStep where
  check : String
  result : StepResult
  detail : String
  weight : ℚ
deriving DecidableEq, Repr

/-- Evaluation context (ai/types.ts, AIContext).  recentOrderCount and
quantity are JavaScript numbers, hence rationals here. -/
structure AIContext where
  userAddress : String
  intent : UserIntent
  item : String
  price : ℚ
  quantity : ℚ
  recentOrderCount : ℚ
  totalDailySpending : ℚ
  agentBalance : ℚ
  currentTime : ℤ
deriving DecidableEq, Repr

/-- Engine configuration (AIDecisionEngine.ts, AIEngineConfig). -/
structure AIEngineConfig where
  maxSinglePayment : ℚ
  maxDailySpending : ℚ
  maxOrdersPerHour : ℚ
  minAgentBalance : ℚ
  autoApproveThreshold : ℚ
  autoRejectThreshold : ℚ
  businessHoursStart : ℤ
  businessHoursEnd : ℤ
deriving DecidableEq, Repr

/-- DEFAULT_CONFIG of AIDecisionEngine.ts. -/
def DEFAULT_CONFIG : AIEngineConfig where
  maxSinglePayment := 1
  maxDailySpending := 10
  maxOrdersPerHour := 10
  minAgentBalance := 0.5
  autoApproveThreshold := 0.8
  autoRejectThreshold := 0.3
  businessHoursStart := 6
  businessHoursEnd := 23

/-- The engine's mutable per-user order history: the Map from user address
to timestamp list, with the Map's missing-key default [] built in. -/
structure EngineState where
  orderHistory : String → List ℤ

/-- AIDecisionEngine.checkIntent. -/
def checkIntent (ctx : AIContext) : ReasoningStep :=
  if ctx.intent = UserIntent.cancelOrder then
    { check := "Intent Validation", result := .fail
      detail := "Cancel requests cannot proceed to payment", weight := 1 }
  else if ctx.intent = UserIntent.bulkOrder ∧ ctx.quantity > 5 then
    { check := "Intent Validation", result := .warn
      detail := "Bulk order requires review", weight := 0.8 }
  else
    { check := "Intent Validation", result := .pass
      detail := "Intent is valid for payment processing", weight := 0.8 }

/-- AIDecisionEngine.checkAmount. -/
def checkAmount (cfg : AIEngineConfig) (ctx : AIContext) : ReasoningStep :=
  if ctx.price ≤ 0 then
    { check := "Amount Validation", result := .fail
      detail := "Payment amount must be positive", weight := 1 }
  else if ctx.price > cfg.maxSinglePayment then
    { check := "Amount Validation", result := .fail
      detail := "Amount exceeds limit", weight := 1 }
  else if ctx.price > cfg.maxSinglePayment * 0.8 then
    { check := "Amount Validation", result := .warn
      detail := "Amount is close to limit", weight := 0.9 }
  else
    { check := "Amount Validation", result := .pass
      detail := "Amount is within acceptable range", weight := 0.9 }

/-- AIDecisionEngine.checkDailyLimit. -/
def checkDailyLimit (cfg : AIEngineConfig) (ctx : AIContext) : ReasoningStep :=
  let projectedTotal := ctx.totalDailySpending + ctx.price
  if projectedTotal > cfg.maxDailySpending then
    { check := "Daily Limit Check", result := .fail
      detail := "Would exceed daily limit", weight := 0.9 }
  else if projectedTotal > cfg.maxDailySpending * 0.9 then
    { check := "Daily Limit Check", result := .warn
      detail := "Approaching daily limit", weight := 0.7 }
  else
    { check := "Daily Limit Check", result := .pass
      detail := "Daily spending OK", weight := 0.7 }

/-- AIDecisionEngine.checkBalance. -/
def checkBalance (cfg : AIEngineConfig) (ctx : AIContext) : ReasoningStep :=
  let remainingAfter := ctx.agentBalance - ctx.price
  if ctx.agentBalance < ctx.price then
    { check := "Balance Check", result := .fail
      detail := "Insufficient balance", weight := 1 }
  else if remainingAfter < cfg.minAgentBalance then
    { check := "Balance Check", result := .warn
      detail := "Low balance warning", weight := 0.8 }
  else
    { check := "Balance Check", result := .pass
      detail := "Sufficient balance", weight := 0.8 }

/-- AIDecisionEngine.recordOrder: prune entries older than one hour, then
append the current time for the given user address. -/
def recordOrder (now : ℤ) (userAddress : String) (st : EngineState) : EngineState :=
  let oneHourAgo := now - 60 * 60 * 1000
  let history := st.orderHistory userAddress
  let recentHistory := history.filter (fun t => t > oneHourAgo)
  { orderHistory := fun a =>
      if a = userAddress then recentHistory ++ [now] else st.orderHistory a }

/-- AIDecisionEngine.getRecentOrderCount. -/
def getRecentOrderCount (now : ℤ) (st : EngineState) (userAddress : String) : ℕ :=
  let oneHourAgo := now - 60 * 60 * 1000
  ((st.orderHistory userAddress).filter (fun t => t > oneHourAgo)).length

/-- AIDecisionEngine.checkOrderFrequency.  The source registers the attempt
(this.recordOrder) before computing the step, so the step comes with the
updated engine state. -/
def checkOrderFrequency (cfg : AIEngineConfig) (now : ℤ) (ctx : AIContext)
    (st : EngineState) : ReasoningStep × EngineState :=
  let st' := recordOrder now ctx.userAddress st
  if ctx.recentOrderCount ≥ cfg.maxOrdersPerHour then
    ({ check := "Rate Limit Check", result := .fail
       detail := "Too many orders", weight := 0.7 }, st')
  else if ctx.recentOrderCount ≥ cfg.maxOrdersPerHour * 0.7 then
    ({ check := "Rate Limit Check", result := .warn
       detail := "High order frequency", weight := 0.5 }, st')
  else
    ({ check := "Rate Limit Check", result := .pass
       detail := "Order frequency OK", weight := 0.5 }, st')

/-- AIDecisionEngine.checkBusinessHours.  Date#getHours is modelled as the
UTC hour of the millisecond timestamp. -/
def checkBusinessHours (cfg : AIEngineConfig) (ctx : AIContext) : ReasoningStep :=
  let hour := (ctx.currentTime.fdiv (60 * 60 * 1000)) % 24
  if hour < cfg.businessHoursStart ∨ hour ≥ cfg.businessHoursEnd then
    { check := "Business Hours Check", result := .warn
      detail := "Order placed outside business hours", weight := 0.3 }
  else
    { check := "Business Hours Check", result := .pass
      detail := "Order placed during business hours", weight := 0.3 }

/-- AIDecisionEngine.assessRisk. -/
def assessRisk (reasoning : List ReasoningStep) (confidence : ℚ) : RiskLevel :=
  let failCount := (reasoning.filter (fun r => r.result = StepResult.fail)).length
  let warnCount := (reasoning.filter (fun r => r.result = StepResult.warn)).length
  if failCount > 0 then .critical
  else if warnCount ≥ 3 then .high
  else if warnCount ≥ 1 then .medium
  else if confidence < 0.7 then .medium
  else .low

/-- AIDecisionEngine.makeDecision. -/
def makeDecision (cfg : AIEngineConfig) (reasoning : List ReasoningStep)
    (confidence : ℚ) (ctx : AIContext) : AIDecision :=
  if ∃ r ∈ reasoning, r.result = StepResult.fail ∧ r.weight ≥ 0.9 then
    .reject
  else if ctx.intent = UserIntent.cancelOrder then
    .reject
  else if confidence ≥ cfg.autoApproveThreshold then
    .approve
  else if confidence < cfg.autoRejectThreshold then
    .reject
  else if (reasoning.filter (fun r => r.result = StepResult.warn)).length ≥ 2 then
    .confirm
  else
    .approve

/-- The per-step score expression of AIDecisionEngine.evaluate, repeated in
the source at five of the six accumulation sites:
result pass gives the weight, warn gives half the weight, fail gives 0. -/
def scoreOf (s : ReasoningStep) : ℚ :=
  if s.result = StepResult.pass then s.weight
  else if s.result = StepResult.warn then s.weight * 0.5
  else 0

/-- JavaScript Math.round(x * 100) / 100 (round half toward positive
infinity, to two decimals). -/
def jsRound2 (q : ℚ) : ℚ := (⌊q * 100 + 1 / 2⌋ : ℤ) / 100

/-- Decision result (ai/types.ts, AIDecisionResult), restricted to the
fields the claims refer to. -/
structure AIDecisionResult where
  decision : AIDecision
  confidence : ℚ
  riskLevel : RiskLevel
  reasoning : List ReasoningStep
deriving DecidableEq, Repr

/-- AIDecisionEngine.evaluate: runs the six checks in order, accumulates
the weighted score (the Balance step contributes its weight only when it
passes — the source's step-4 accumulation has no warn alternative), and
assembles the decision result.  The engine state is threaded through the
frequency check, which registers the attempt. -/
def evaluate (cfg : AIEngineConfig) (ctx : AIContext) (now : ℤ)
    (st : EngineState) : AIDecisionResult × EngineState :=
  let intentCheck := checkIntent ctx
  let amountCheck := checkAmount cfg ctx
  let dailyCheck := checkDailyLimit cfg ctx
  let balanceCheck := checkBalance cfg ctx
  let rateOut := checkOrderFrequency cfg now ctx st
  let rateCheck := rateOut.1
  let timeCheck := checkBusinessHours cfg ctx
  let reasoning := [intentCheck, amountCheck, dailyCheck, balanceCheck, rateCheck, timeCheck]
  let totalScore := scoreOf intentCheck + scoreOf amountCheck + scoreOf dailyCheck +
      (if balanceCheck.result = StepResult.pass then balanceCheck.weight else 0) +
      scoreOf rateCheck + scoreOf timeCheck
  let totalWeight := intentCheck.weight + amountCheck.weight + dailyCheck.weight +
      balanceCheck.weight + rateCheck.weight + timeCheck.weight
  let confidence := if totalWeight > 0 then totalScore / totalWeight else 0
  let riskLevel := assessRisk reasoning confidence
  let decision := makeDecision cfg reasoning confidence ctx
  ({ decision := decision
     confidence := jsRound2 confidence
     riskLevel := riskLevel
     reasoning := reasoning }, rateOut.2)

/-! ## Pipeline agents and orchestrator (src/agents) -/

/-- Agent roles (agents/types.ts, AgentRole). -/
inductive AgentRole where
  | reception
  | approval
  | payment
deriving DecidableEq, Repr, BEq

/-- Order status through the pipeline (agents/types.ts, OrderStatus). -/
inductive OrderStatus where
  | received
  | validating
  | pendingApproval
  | approved
  | processing
  | completed
  | rejected
  | failed
deriving DecidableEq, Repr, BEq

/-- Result of one agent action (agents/types.ts, AgentActionResult). -/
inductive StageResult where
  | pass
  | fail
  | approved
  | rejected
  | success
  | failed
deriving DecidableEq, Repr, BEq

/-- A stage record (agents/types.ts, AgentStepRecord), restricted to the
control-relevant fields; wallet address, timestamps, duration and
signature are presentation data. -/
structure StepRecord where
  role : AgentRole
  result : StageResult
  message : Option String
  txHash : Option String := none
deriving DecidableEq, Repr

/-- agents/types.ts, ProcessingPipeline. -/
structure ProcessingPipeline where
  reception : Option StepRecord := none
  approval : Option StepRecord := none
  payment : Option StepRecord := none
deriving DecidableEq, Repr

/-- agents/types.ts, CoffeeOrder. -/
structure CoffeeOrder where
  id : String
  item : String
  price : ℚ
  currency : String
  merchantAddress : String
  userAddress : String
  timestamp : ℤ
deriving DecidableEq, Repr

/-- agents/types.ts, AgentMessage. -/
structure AgentMessage where
  orderId : String
  order : CoffeeOrder
  status : OrderStatus
  pipeline : ProcessingPipeline
  previousAgent : Option AgentRole := none
  error : Option String := none
deriving DecidableEq, Repr

/-- ApprovalAgent policy (ApprovalAgent.ts, ApprovalPolicy). -/
structure ApprovalPolicy where
  approvalThreshold : ℚ
  maxSinglePayment : ℚ
  maxDailySpending : ℚ
deriving DecidableEq, Repr

/-- The ApprovalAgent's daily-spending ledger: a single accumulator and
the start of its current 24-hour window (ApprovalAgent.ts fields
dailySpending and lastResetTime).  Note there is no identity key. -/
structure LedgerState where
  dailySpending : ℚ
  lastResetTime : ℤ
deriving DecidableEq, Repr

/-- ApprovalAgent.DAY_IN_MS. -/
def DAY_IN_MS : ℤ := 24 * 60 * 60 * 1000

/-- ApprovalAgent.checkAndResetDailySpending: zero the accumulator and
restart the window exactly when a full 24 hours have elapsed. -/
def checkAndResetDailySpending (now : ℤ) (st : LedgerState) : LedgerState :=
  if now - st.lastResetTime ≥ DAY_IN_MS then
    { dailySpending := 0, lastResetTime := now }
  else st

/-- ApprovalAgent.getCurrentDailySpending: lazy reset, then read. -/
def getCurrentDailySpending (now : ℤ) (st : LedgerState) : ℚ × LedgerState :=
  let st' := checkAndResetDailySpending now st
  (st'.dailySpending, st')

/-- ApprovalAgent.recordSpending: lazy reset, then add the amount. -/
def recordSpending (now : ℤ) (amount : ℚ) (st : LedgerState) : LedgerState :=
  let st' := checkAndResetDailySpending now st
  { st' with dailySpending := st'.dailySpending + amount }

/-- ApprovalAgent.evaluateOrder: lazy reset, then the two policy gates. -/
def evaluateOrder (policy : ApprovalPolicy) (now : ℤ) (amount : ℚ)
    (st : LedgerState) : (Bool × Option String) × LedgerState :=
  let st' := checkAndResetDailySpending now st
  if amount > policy.maxSinglePayment then
    ((false, some "Amount exceeds maximum single payment limit"), st')
  else
    let projectedSpending := st'.dailySpending + amount
    if projectedSpending > policy.maxDailySpending then
      ((false, some "Order would exceed daily spending limit"), st')
    else
      ((true, none), st')

/-- ReceptionAgent.validateOrder. -/
def validateOrder (order : CoffeeOrder) : Bool × Option String :=
  if order.item.trim = "" then
    (false, some "Order item is required")
  else if order.price ≤ 0 then
    (false, some "Order price must be a positive number")
  else if order.currency ≠ "USDT" then
    (false, some "Only USDT payments are accepted")
  else if ¬ order.userAddress.startsWith "0x" then
    (false, some "Valid user address is required")
  else if ¬ order.merchantAddress.startsWith "0x" then
    (false, some "Valid merchant address is required")
  else
    (true, none)

/-- ReceptionAgent.process.  signOk models whether the external signer's
signMessage resolves; when it rejects, the stage throws: the Bool in the
result is the threw flag and the message carries the in-place mutations
made before the throw (only the VALIDATING status). -/
def ReceptionAgent.process (signOk : Bool) (msg0 : AgentMessage) :
    AgentMessage × Bool :=
  let msg := { msg0 with status := OrderStatus.validating }
  match validateOrder msg.order with
  | (false, reason) =>
    ({ msg with
       status := OrderStatus.rejected, error := reason,
       pipeline := { msg.pipeline with
         reception := some { role := .reception, result := .fail, message := reason } } },
     false)
  | (true, _) =>
    if signOk then
      ({ msg with
         pipeline := { msg.pipeline with
           reception := some { role := .reception, result := .pass,
                               message := some "Order validated successfully" } },
         status := OrderStatus.pendingApproval,
         previousAgent := some AgentRole.reception },
       false)
    else (msg, true)

/-- ApprovalAgent.process.  Verifies the order came from Reception, then
applies evaluateOrder; the signing of the approval attestation happens
before the approval mutations, so a signer rejection (signOk = false)
throws with the message not yet mutated (the ledger reset performed by
evaluateOrder does persist). -/
def ApprovalAgent.process (signOk : Bool) (policy : ApprovalPolicy) (now : ℤ)
    (msg : AgentMessage) (st : LedgerState) :
    (AgentMessage × Bool) × LedgerState :=
  if msg.previousAgent ≠ some AgentRole.reception then
    (({ msg with
        status := OrderStatus.rejected,
        error := some "Invalid processing pipeline",
        pipeline := { msg.pipeline with
          approval := some { role := .approval, result := .rejected,
                             message := some "Invalid pipeline" } } },
      false), st)
  else
    let amount := msg.order.price
    let evalOut := evaluateOrder policy now amount st
    let st' := evalOut.2
    match evalOut.1 with
    | (false, reason) =>
      (({ msg with
          status := OrderStatus.rejected, error := reason,
          pipeline := { msg.pipeline with
            approval := some { role := .approval, result := .rejected,
                               message := reason } } },
        false), st')
    | (true, _) =>
      if signOk then
        (({ msg with
            pipeline := { msg.pipeline with
              approval := some { role := .approval, result := .approved,
                                 message := some "Order approved" } },
            status := OrderStatus.approved,
            previousAgent := some AgentRole.approval },
          false), st')
      else ((msg, true), st')

/-- Outcome of the external settlement transfer (PaymentAgent.ts,
executeTransfer result; the TypeScript catches its own exceptions and
returns success = false). -/
structure TransferResult where
  success : Bool
  txHash : Option String := none
  error : Option String := none
deriving DecidableEq, Repr

/-- JavaScript truthiness of the optional txHash string. -/
def txTruthy : Option String → Bool
  | none => false
  | some s => s ≠ ""

/-- PaymentAgent.process.  Requires the run to come from Approval with
APPROVED status (each mismatch sets FAILED), then executes the transfer;
the completion attestation is signed before the success mutations, so a
signer rejection throws with the status already set to PROCESSING. -/
def PaymentAgent.process (signOk : Bool) (transfer : TransferResult)
    (msg : AgentMessage) : AgentMessage × Bool :=
  if msg.previousAgent ≠ some AgentRole.approval then
    ({ msg with
       status := OrderStatus.failed,
       error := some "Invalid processing pipeline",
       pipeline := { msg.pipeline with
         payment := some { role := .payment, result := .failed,
                           message := some "Invalid pipeline" } } },
     false)
  else if msg.status ≠ OrderStatus.approved then
    ({ msg with
       status := OrderStatus.failed,
       error := some "Order not approved",
       pipeline := { msg.pipeline with
         payment := some { role := .payment, result := .failed,
                           message := some "Order not approved" } } },
     false)
  else
    let msg := { msg with status := OrderStatus.processing }
    if transfer.success ∧ txTruthy transfer.txHash then
      if signOk then
        ({ msg with
           pipeline := { msg.pipeline with
             payment := some { role := .payment, result := .success,
                               message := some "Payment completed",
                               txHash := transfer.txHash } },
           status := OrderStatus.completed,
           previousAgent := some AgentRole.payment },
         false)
      else (msg, true)
    else
      ({ msg with
         status := OrderStatus.failed, error := transfer.error,
         pipeline := { msg.pipeline with
           payment := some { role := .payment, result := .failed,
                             message := transfer.error } },
         previousAgent := some AgentRole.payment },
       false)

/-- Order request (ai/types.ts, IntentOrderRequest). -/
structure IntentOrderRequest where
  intent : UserIntent
  item : String
  price : ℚ
  quantity : Option ℚ := none
  userAddress : String
deriving DecidableEq, Repr

/-- External effects of one pipeline run: the fetched payment-agent
balance, the resolution of the three signMessage calls, the settlement
transfer outcome, and the text of a caught exception. -/
structure Externals where
  agentBalance : ℚ
  signReception : Bool := true
  signApproval : Bool := true
  signPayment : Bool := true
  transfer : TransferResult
  thrownMessage : String := "Unknown error"
deriving DecidableEq, Repr

/-- Orchestrator-owned mutable state: the ApprovalAgent ledger and the
engine's order history. -/
structure OrchState where
  ledger : LedgerState
  engine : EngineState

/-- Result of AgentOrchestrator.processOrderWithAI, restricted to the
fields the claims refer to; commits is the audit list of amounts passed
to ApprovalAgent.recordSpending during the run. -/
structure PipelineResult where
  success : Bool
  finalMsg : Option AgentMessage
  aiDecision : AIDecisionResult
  commits : List ℚ

/-- Terminal status of a run (none when the AI layer returned before the
agent pipeline was entered). -/
def PipelineResult.finalStatus (r : PipelineResult) : Option OrderStatus :=
  r.finalMsg.map (fun m => m.status)

/-- AgentOrchestrator.createEnhancedResponse, restricted. -/
def mkEnhanced (msg : AgentMessage) (ai : AIDecisionResult) (commits : List ℚ) :
    PipelineResult :=
  { success := msg.status = OrderStatus.completed,
    finalMsg := some msg,
    aiDecision := ai,
    commits := commits }

/-- The tail of AgentOrchestrator.processOrderWithAI from the Approval
stage onward: approval, early return on rejection, payment, and the
COMPLETED-guarded recordSpending call; throws are caught by the
surrounding try-catch, which sets status FAILED. -/
def runFromApproval (policy : ApprovalPolicy) (signApproval signPayment : Bool)
    (transfer : TransferResult) (thrownMessage : String) (now : ℤ)
    (ai : AIDecisionResult) (msg : AgentMessage) (st : OrchState) :
    PipelineResult × OrchState :=
  let aOut := ApprovalAgent.process signApproval policy now msg st.ledger
  let msg1 := aOut.1.1
  let st1 : OrchState := { st with ledger := aOut.2 }
  if aOut.1.2 then
    (mkEnhanced { msg1 with
                  status := OrderStatus.failed,
                  error := some thrownMessage } ai [], st1)
  else if msg1.status = OrderStatus.rejected then
    (mkEnhanced msg1 ai [], st1)
  else
    let pOut := PaymentAgent.process signPayment transfer msg1
    let msg2 := pOut.1
    if pOut.2 then
      (mkEnhanced { msg2 with
                    status := OrderStatus.failed,
                    error := some thrownMessage } ai [], st1)
    else if msg2.status = OrderStatus.completed then
      (mkEnhanced msg2 ai [msg.order.price],
       { st1 with ledger := recordSpending now msg.order.price st1.ledger })
    else
      (mkEnhanced msg2 ai [], st1)

/-- AgentOrchestrator.processOrderWithAI (after initialization; the order
id, generated from clock and randomness, is a parameter).  Builds the AI
context from ledger/tracker snapshots, evaluates, returns early on
REJECT or CONFIRM, and otherwise drives the message through Reception and
then runFromApproval. -/
def processOrderWithAI (cfg : AIEngineConfig) (policy : ApprovalPolicy)
    (orderId : String) (req : IntentOrderRequest) (merchantAddress : String)
    (now : ℤ) (ext : Externals) (st : OrchState) : PipelineResult × OrchState :=
  let dailyOut := getCurrentDailySpending now st.ledger
  let ctx : AIContext :=
    { userAddress := req.userAddress,
      intent := req.intent,
      item := req.item,
      price := req.price,
      quantity := req.quantity.getD 1,
      recentOrderCount := (getRecentOrderCount now st.engine req.userAddress : ℚ),
      totalDailySpending := dailyOut.1,
      agentBalance := ext.agentBalance,
      currentTime := now }
  let aiOut := evaluate cfg ctx now st.engine
  let ai := aiOut.1
  let st1 : OrchState := { ledger := dailyOut.2, engine := aiOut.2 }
  if ai.decision = AIDecision.reject then
    ({ success := false, finalMsg := none, aiDecision := ai, commits := [] }, st1)
  else if ai.decision = AIDecision.confirm then
    ({ success := false, finalMsg := none, aiDecision := ai, commits := [] }, st1)
  else
    let order : CoffeeOrder :=
      { id := orderId, item := req.item, price := req.price, currency := "USDT",
        merchantAddress := merchantAddress, userAddress := req.userAddress,
        timestamp := now }
    let msg0 : AgentMessage :=
      { orderId := orderId, order := order, status := OrderStatus.received,
        pipeline := {} }
    let rOut := ReceptionAgent.process ext.signReception msg0
    let msg1 := rOut.1
    if rOut.2 then
      (mkEnhanced { msg1 with
                    status := OrderStatus.failed,
                    error := some ext.thrownMessage } ai [], st1)
    else if msg1.status = OrderStatus.rejected then
      (mkEnhanced msg1 ai [], st1)
    else
      runFromApproval policy ext.signApproval ext.signPayment ext.transfer
        ext.thrownMessage now ai msg1 st1

/-- What a given user identity observes as its rolling-window spend
snapshot.  The implementation's ledger (ApprovalAgent.dailySpending) has
no identity parameter: the orchestrator feeds every request's
totalDailySpending from the same getCurrentDailySpending() call, so the
identity argument is ignored. -/
def snapshotForIdentity (_identity : String) (now : ℤ) (st : LedgerState) :
    ℚ × LedgerState :=
  getCurrentDailySpending now st

/-- Committing spend on behalf of a given user identity.  The
implementation (ApprovalAgent.recordSpending) has no identity parameter;
the identity argument is ignored. -/
def commitSpendingFor (_identity : String) (now : ℤ) (amount : ℚ)
    (st : LedgerState) : LedgerState :=
  recordSpending now amount st

/-! ## Helper lemmas -/

/-- The per-step score of the claimed confidence formula: full weight on
pass, half weight on warn, zero on fail. -/
def claimedStepScore (s : ReasoningStep) : ℚ :=
  match s.result with
  | .pass => s.weight
  | .warn => s.weight * 0.5
  | .fail => 0

/-- The per-step score the engine actually uses: as claimed on five of
the six steps, but the Balance Check step scores zero on warn. -/
def amendedStepScore (s : ReasoningStep) : ℚ :=
  match s.result with
  | .pass => s.weight
  | .warn => if s.check = "Balance Check" then 0 else s.weight * 0.5
  | .fail => 0

/-- Weighted pass-rate over a list of steps under a given per-step score,
rounded to two decimals (with the zero-total-weight guard of the source). -/
def specConfidence (stepScore : ReasoningStep → ℚ)
    (steps : List ReasoningStep) : ℚ :=
  let total := (steps.map stepScore).sum
  let weights := (steps.map (fun s => s.weight)).sum
  jsRound2 (if weights > 0 then total / weights else 0)

/-- The risk-tier mapping as the spec states it. -/
def specRiskTier (steps : List ReasoningStep) (confidence : ℚ) : RiskLevel :=
  if ∃ s ∈ steps, s.result = StepResult.fail then .critical
  else if (steps.filter (fun s => s.result = StepResult.warn)).length ≥ 3 then .high
  else if (steps.filter (fun s => s.result = StepResult.warn)).length ≥ 1
      ∨ confidence < 0.7 then .medium
  else .low

lemma scoreOf_pass {s : ReasoningStep} (h : s.result = StepResult.pass) :
    scoreOf s = s.weight := by
  rw [scoreOf, if_pos h]

lemma amendedStepScore_eq_scoreOf {s : ReasoningStep}
    (h : s.check ≠ "Balance Check") : amendedStepScore s = scoreOf s := by
  rcases s with ⟨c, r, d, w⟩
  cases r <;> simp_all [amendedStepScore, scoreOf]

lemma amendedStepScore_balance {s : ReasoningStep}
    (h : s.check = "Balance Check") :
    amendedStepScore s = if s.result = StepResult.pass then s.weight else 0 := by
  rcases s with ⟨c, r, d, w⟩
  cases r <;> simp_all [amendedStepScore]

lemma checkIntent_check (ctx : AIContext) :
    (checkIntent ctx).check = "Intent Validation" := by
  rw [checkIntent]; split_ifs <;> rfl

lemma checkAmount_check (cfg : AIEngineConfig) (ctx : AIContext) :
    (checkAmount cfg ctx).check = "Amount Validation" := by
  rw [checkAmount]; split_ifs <;> rfl

lemma checkDailyLimit_check (cfg : AIEngineConfig) (ctx : AIContext) :
    (checkDailyLimit cfg ctx).check = "Daily Limit Check" := by
  rw [checkDailyLimit]; split_ifs <;> rfl

lemma checkBalance_check (cfg : AIEngineConfig) (ctx : AIContext) :
    (checkBalance cfg ctx).check = "Balance Check" := by
  rw [checkBalance]; split_ifs <;> rfl

lemma checkOrderFrequency_check (cfg : AIEngineConfig) (now : ℤ)
    (ctx : AIContext) (st : EngineState) :
    (checkOrderFrequency cfg now ctx st).1.check = "Rate Limit Check" := by
  rw [checkOrderFrequency]; split_ifs <;> rfl

lemma checkBusinessHours_check (cfg : AIEngineConfig) (ctx : AIContext) :
    (checkBusinessHours cfg ctx).check = "Business Hours Check" := by
  rw [checkBusinessHours]; split_ifs <;> rfl

lemma checkIntent_weight_pos (ctx : AIContext) : 0 < (checkIntent ctx).weight := by
  rw [checkIntent]; split_ifs <;> norm_num

lemma checkAmount_weight_pos (cfg : AIEngineConfig) (ctx : AIContext) :
    0 < (checkAmount cfg ctx).weight := by
  rw [checkAmount]; split_ifs <;> norm_num

lemma checkDailyLimit_weight_pos (cfg : AIEngineConfig) (ctx : AIContext) :
    0 < (checkDailyLimit cfg ctx).weight := by
  rw [checkDailyLimit]; split_ifs <;> norm_num

lemma checkBalance_weight_pos (cfg : AIEngineConfig) (ctx : AIContext) :
    0 < (checkBalance cfg ctx).weight := by
  rw [checkBalance]; split_ifs <;> norm_num

lemma checkOrderFrequency_weight_pos (cfg : AIEngineConfig) (now : ℤ)
    (ctx : AIContext) (st : EngineState) :
    0 < (checkOrderFrequency cfg now ctx st).1.weight := by
  rw [checkOrderFrequency]; split_ifs <;> norm_num

lemma checkBusinessHours_weight_pos (cfg : AIEngineConfig) (ctx : AIContext) :
    0 < (checkBusinessHours cfg ctx).weight := by
  rw [checkBusinessHours]; split_ifs <;> norm_num

lemma evaluate_reject_of_critical_fail (cfg : AIEngineConfig) (ctx : AIContext)
    (now : ℤ) (st : EngineState)
    (h : ∃ s ∈ (evaluate cfg ctx now st).1.reasoning,
        s.result = StepResult.fail ∧ s.weight ≥ 0.9) :
    (evaluate cfg ctx now st).1.decision = AIDecision.reject := by
  simp only [evaluate] at h ⊢
  rw [makeDecision, if_pos h]

/-! ## Claims -/

/-- C8.  The rolling-window spending reset is lazy and all-or-nothing: a
snapshot taken once 24 hours have elapsed since the window start returns
0 and restarts the window at the query time; a snapshot before that
returns the accumulated amount and changes nothing. -/
theorem daily_spending_lazy_reset (now : ℤ) (st : LedgerState) :
    getCurrentDailySpending now st
      = if now - st.lastResetTime ≥ DAY_IN_MS
        then (0, { dailySpending := 0, lastResetTime := now })
        else (st.dailySpending, st) := by
  rw [getCurrentDailySpending, checkAndResetDailySpending]
  split_ifs <;> rfl

/-- C4.  If the reasoning list produced by evaluate contains a fail step
of weight at least 0.9, the decision is REJECT. -/
theorem critical_fail_forces_reject (cfg : AIEngineConfig) (ctx : AIContext)
    (now : ℤ) (st : EngineState)
    (h : ∃ s ∈ (evaluate cfg ctx now st).1.reasoning,
        s.result = StepResult.fail ∧ s.weight ≥ 0.9) :
    (evaluate cfg ctx now st).1.decision = AIDecision.reject :=
  evaluate_reject_of_critical_fail cfg ctx now st h

/-- An empty engine state (no order history). -/
def emptyHistory : EngineState := ⟨fun _ => []⟩

/-- A well-formed midday context with price 0. -/
def ctxZeroPrice : AIContext :=
  { userAddress := "0xuser", intent := .buyCoffee, item := "latte", price := 0,
    quantity := 1, recentOrderCount := 0, totalDailySpending := 0,
    agentBalance := 1, currentTime := 43200000 }

/-- Witness for C4 at a concrete input: the zero-price context has a fail
step of weight 1 in its reasoning, and the decision is REJECT. -/
theorem critical_fail_forces_reject_witness :
    (∃ s ∈ (evaluate DEFAULT_CONFIG ctxZeroPrice 0 emptyHistory).1.reasoning,
        s.result = StepResult.fail ∧ s.weight ≥ 0.9) ∧
    (evaluate DEFAULT_CONFIG ctxZeroPrice 0 emptyHistory).1.decision
      = AIDecision.reject := by
  have hamt : checkAmount DEFAULT_CONFIG ctxZeroPrice =
      { check := "Amount Validation", result := StepResult.fail,
        detail := "Payment amount must be positive", weight := 1 } := by
    rw [checkAmount, if_pos (show ctxZeroPrice.price ≤ 0 by norm_num [ctxZeroPrice])]
  have h : ∃ s ∈ (evaluate DEFAULT_CONFIG ctxZeroPrice 0 emptyHistory).1.reasoning,
      s.result = StepResult.fail ∧ s.weight ≥ 0.9 :=
    ⟨checkAmount DEFAULT_CONFIG ctxZeroPrice, by simp [evaluate],
     by rw [hamt], by rw [hamt]; norm_num⟩
  exact ⟨h, critical_fail_forces_reject DEFAULT_CONFIG ctxZeroPrice 0 emptyHistory h⟩

/-- C5.  A context with nonpositive price is rejected, and its reasoning
contains the failing Amount Validation step of weight 1. -/
theorem nonpositive_price_rejected (cfg : AIEngineConfig) (ctx : AIContext)
    (now : ℤ) (st : EngineState) (h : ctx.price ≤ 0) :
    (evaluate cfg ctx now st).1.decision = AIDecision.reject ∧
    ∃ s ∈ (evaluate cfg ctx now st).1.reasoning,
        s.check = "Amount Validation" ∧ s.result = StepResult.fail ∧ s.weight = 1 := by
  have hamt : checkAmount cfg ctx =
      { check := "Amount Validation", result := StepResult.fail,
        detail := "Payment amount must be positive", weight := 1 } := by
    rw [checkAmount, if_pos h]
  have hmem : ∃ s ∈ (evaluate cfg ctx now st).1.reasoning,
      s.check = "Amount Validation" ∧ s.result = StepResult.fail ∧ s.weight = 1 := by
    refine ⟨checkAmount cfg ctx, ?_, by rw [hamt], by rw [hamt], by rw [hamt]⟩
    simp [evaluate]
  refine ⟨?_, hmem⟩
  obtain ⟨s, hsL, _, hres, hw⟩ := hmem
  exact evaluate_reject_of_critical_fail cfg ctx now st
    ⟨s, hsL, hres, by rw [hw]; norm_num⟩

/-- Witness for C5 at the concrete zero-price context. -/
theorem nonpositive_price_rejected_witness :
    ctxZeroPrice.price ≤ 0 ∧
    ((evaluate DEFAULT_CONFIG ctxZeroPrice 0 emptyHistory).1.decision
        = AIDecision.reject ∧
     ∃ s ∈ (evaluate DEFAULT_CONFIG ctxZeroPrice 0 emptyHistory).1.reasoning,
        s.check = "Amount Validation" ∧ s.result = StepResult.fail ∧ s.weight = 1) :=
  ⟨by norm_num [ctxZeroPrice],
   nonpositive_price_rejected DEFAULT_CONFIG ctxZeroPrice 0 emptyHistory
     (by norm_num [ctxZeroPrice])⟩

/-- C10.  Every call to evaluate, whatever the decision, rewrites the
order history of the context user to the pruned old history (entries
within the trailing hour) with the current time appended, so the recent
order count that later evaluations observe grows by one. -/
theorem evaluate_records_one_attempt (cfg : AIEngineConfig) (ctx : AIContext)
    (now : ℤ) (st : EngineState) :
    (evaluate cfg ctx now st).2.orderHistory ctx.userAddress
        = ((st.orderHistory ctx.userAddress).filter
            (fun t => t > now - 60 * 60 * 1000)) ++ [now]
    ∧ getRecentOrderCount now (evaluate cfg ctx now st).2 ctx.userAddress
        = ((st.orderHistory ctx.userAddress).filter
            (fun t => t > now - 60 * 60 * 1000)).length + 1 := by
  have hstate : (evaluate cfg ctx now st).2 = recordOrder now ctx.userAddress st := by
    simp only [evaluate, checkOrderFrequency]
    split_ifs <;> rfl
  have hhist : (recordOrder now ctx.userAddress st).orderHistory ctx.userAddress
      = ((st.orderHistory ctx.userAddress).filter
          (fun t => t > now - 60 * 60 * 1000)) ++ [now] := by
    simp [recordOrder]
  have h1 : ∀ l : List ℤ, (l.filter (fun t => t > now - 60 * 60 * 1000)).filter
      (fun t => t > now - 60 * 60 * 1000) = l.filter (fun t => t > now - 60 * 60 * 1000) :=
    fun l => List.filter_eq_self.mpr (fun a ha => (List.mem_filter.mp ha).2)
  have h2 : ([now] : List ℤ).filter (fun t => t > now - 60 * 60 * 1000) = [now] := by
    simp only [List.filter_cons, List.filter_nil]
    rw [if_pos (by simp only [decide_eq_true_eq]; omega)]
  refine ⟨by rw [hstate, hhist], ?_⟩
  rw [hstate]
  simp only [getRecentOrderCount]
  rw [hhist, List.filter_append, h1, h2, List.length_append]
  simp

lemma filter_fail_pos_iff (L : List ReasoningStep) :
    0 < (L.filter (fun s => s.result = StepResult.fail)).length
      ↔ ∃ s ∈ L, s.result = StepResult.fail := by
  rw [List.length_pos]
  constructor
  · intro h
    obtain ⟨x, hx⟩ := List.exists_mem_of_ne_nil _ h
    exact ⟨x, (List.mem_filter.mp hx).1, by simpa using (List.mem_filter.mp hx).2⟩
  · rintro ⟨s, hs, hres⟩ hnil
    have hmem : s ∈ L.filter (fun s => s.result = StepResult.fail) :=
      List.mem_filter.mpr ⟨hs, by simp [hres]⟩
    simp [hnil] at hmem

lemma jsRound2_one : jsRound2 1 = 1 := by
  have h : ⌊(1 : ℚ) * 100 + 1 / 2⌋ = (100 : ℤ) := by
    apply Int.floor_eq_iff.mpr
    constructor <;> norm_num
  rw [jsRound2, h]
  norm_num

/-- The engine's risk assessment agrees with the claimed tier mapping on
any step list, provided the confidence is 1 whenever every step passes
(which holds for the lists evaluate produces). -/
lemma assessRisk_eq_specRiskTier (L : List ReasoningStep) (confU : ℚ)
    (hall : (∀ s ∈ L, s.result = StepResult.pass) → confU = 1) :
    assessRisk L confU = specRiskTier L (jsRound2 confU) := by
  unfold assessRisk specRiskTier
  by_cases hf : 0 < (L.filter (fun s => s.result = StepResult.fail)).length
  · rw [if_pos hf, if_pos ((filter_fail_pos_iff L).mp hf)]
  · have hnf : ¬ ∃ s ∈ L, s.result = StepResult.fail :=
      fun hex => hf ((filter_fail_pos_iff L).mpr hex)
    rw [if_neg hf, if_neg hnf]
    by_cases h3 : (L.filter (fun s => s.result = StepResult.warn)).length ≥ 3
    · rw [if_pos h3, if_pos h3]
    · rw [if_neg h3, if_neg h3]
      by_cases h1 : (L.filter (fun s => s.result = StepResult.warn)).length ≥ 1
      · rw [if_pos h1, if_pos (Or.inl h1)]
      · rw [if_neg h1]
        have hpass : ∀ s ∈ L, s.result = StepResult.pass := by
          intro s hs
          cases hres : s.result with
          | pass => rfl
          | warn =>
            exfalso
            have hnil : L.filter (fun s => s.result = StepResult.warn) = [] :=
              List.length_eq_zero.mp (by omega)
            have hmem : s ∈ L.filter (fun s => s.result = StepResult.warn) :=
              List.mem_filter.mpr ⟨hs, by simp [hres]⟩
            simp [hnil] at hmem
          | fail => exact absurd ⟨s, hs, hres⟩ hnf
        rw [hall hpass, jsRound2_one]
        rw [if_neg (by norm_num), if_neg]
        rintro (h | h)
        · exact h1 h
        · norm_num at h

/-- C9.  The risk level evaluate returns follows the claimed mapping:
critical on any fail, high on three or more warns, medium on at least one
warn or confidence below 0.7, else low. -/
theorem evaluate_risk_tier (cfg : AIEngineConfig) (ctx : AIContext)
    (now : ℤ) (st : EngineState) :
    (evaluate cfg ctx now st).1.riskLevel
      = specRiskTier (evaluate cfg ctx now st).1.reasoning
          (evaluate cfg ctx now st).1.confidence := by
  simp only [evaluate]
  refine assessRisk_eq_specRiskTier _ _ ?_
  intro hall
  have h1 : (checkIntent ctx).result = StepResult.pass := hall _ (by simp)
  have h2 : (checkAmount cfg ctx).result = StepResult.pass := hall _ (by simp)
  have h3 : (checkDailyLimit cfg ctx).result = StepResult.pass := hall _ (by simp)
  have h4 : (checkBalance cfg ctx).result = StepResult.pass := hall _ (by simp)
  have h5 : ((checkOrderFrequency cfg now ctx st).1).result = StepResult.pass :=
    hall _ (by simp)
  have h6 : (checkBusinessHours cfg ctx).result = StepResult.pass := hall _ (by simp)
  rw [scoreOf_pass h1, scoreOf_pass h2, scoreOf_pass h3, if_pos h4,
    scoreOf_pass h5, scoreOf_pass h6]
  have hw1 := checkIntent_weight_pos ctx
  have hw2 := checkAmount_weight_pos cfg ctx
  have hw3 := checkDailyLimit_weight_pos cfg ctx
  have hw4 := checkBalance_weight_pos cfg ctx
  have hw5 := checkOrderFrequency_weight_pos cfg now ctx st
  have hw6 := checkBusinessHours_weight_pos cfg ctx
  have htw : (0 : ℚ) < (checkIntent ctx).weight + (checkAmount cfg ctx).weight
      + (checkDailyLimit cfg ctx).weight + (checkBalance cfg ctx).weight
      + ((checkOrderFrequency cfg now ctx st).1).weight
      + (checkBusinessHours cfg ctx).weight := by linarith
  rw [if_pos htw]
  exact div_self (ne_of_gt htw)

/-- C1 (amended).  The confidence evaluate returns is the weighted
pass-rate rounded to two decimals where a warn scores half its weight on
every step except the Balance step, on which a warn scores zero. -/
theorem evaluate_confidence_weighted_score (cfg : AIEngineConfig)
    (ctx : AIContext) (now : ℤ) (st : EngineState) :
    (evaluate cfg ctx now st).1.confidence
      = specConfidence amendedStepScore (evaluate cfg ctx now st).1.reasoning := by
  simp only [evaluate, specConfidence, List.map_cons, List.map_nil, List.sum_cons,
    List.sum_nil, add_zero]
  set i := checkIntent ctx with hi
  set a := checkAmount cfg ctx with ha
  set d := checkDailyLimit cfg ctx with hd
  set b := checkBalance cfg ctx with hb
  set r := (checkOrderFrequency cfg now ctx st).1 with hr
  set t := checkBusinessHours cfg ctx with ht
  have e1 : amendedStepScore i = scoreOf i :=
    amendedStepScore_eq_scoreOf (by rw [hi, checkIntent_check]; decide)
  have e2 : amendedStepScore a = scoreOf a :=
    amendedStepScore_eq_scoreOf (by rw [ha, checkAmount_check]; decide)
  have e3 : amendedStepScore d = scoreOf d :=
    amendedStepScore_eq_scoreOf (by rw [hd, checkDailyLimit_check]; decide)
  have e4 : amendedStepScore b = if b.result = StepResult.pass then b.weight else 0 :=
    amendedStepScore_balance (by rw [hb, checkBalance_check])
  have e5 : amendedStepScore r = scoreOf r :=
    amendedStepScore_eq_scoreOf (by rw [hr, checkOrderFrequency_check]; decide)
  have e6 : amendedStepScore t = scoreOf t :=
    amendedStepScore_eq_scoreOf (by rw [ht, checkBusinessHours_check]; decide)
  rw [e1, e2, e3, e4, e5, e6]
  have hwsum : i.weight + (a.weight + (d.weight + (b.weight + (r.weight + t.weight))))
      = i.weight + a.weight + d.weight + b.weight + r.weight + t.weight := by ring
  have hssum : scoreOf i + (scoreOf a + (scoreOf d +
        ((if b.result = StepResult.pass then b.weight else 0) + (scoreOf r + scoreOf t))))
      = scoreOf i + scoreOf a + scoreOf d +
        (if b.result = StepResult.pass then b.weight else 0) + scoreOf r + scoreOf t := by
    ring
  rw [hwsum, hssum]

/-- A context whose Balance step warns: price 0.5 against balance 0.6
with the default 0.5 buffer. -/
def ctxBalanceWarn : AIContext :=
  { userAddress := "0xuser", intent := .buyCoffee, item := "latte", price := 0.5,
    quantity := 1, recentOrderCount := 0, totalDailySpending := 0,
    agentBalance := 0.6, currentTime := 43200000 }

lemma jsRound2_mul100_int (q : ℚ) (n : ℤ) (h : q * 100 = (n : ℚ)) :
    jsRound2 q = q := by
  have hfl : ⌊q * 100 + 1 / 2⌋ = n := by
    rw [h, Int.floor_eq_iff]
    constructor <;> linarith
  rw [jsRound2, hfl, div_eq_iff (by norm_num : (100 : ℚ) ≠ 0)]
  linarith [h]

lemma ctxBalanceWarn_intent : checkIntent ctxBalanceWarn =
    { check := "Intent Validation", result := StepResult.pass,
      detail := "Intent is valid for payment processing", weight := 0.8 } := by
  rw [checkIntent, if_neg (by simp [ctxBalanceWarn]), if_neg (by simp [ctxBalanceWarn])]

lemma ctxBalanceWarn_amount : checkAmount DEFAULT_CONFIG ctxBalanceWarn =
    { check := "Amount Validation", result := StepResult.pass,
      detail := "Amount is within acceptable range", weight := 0.9 } := by
  rw [checkAmount, if_neg (by norm_num [ctxBalanceWarn]),
    if_neg (by norm_num [ctxBalanceWarn, DEFAULT_CONFIG]),
    if_neg (by norm_num [ctxBalanceWarn, DEFAULT_CONFIG])]

lemma ctxBalanceWarn_daily : checkDailyLimit DEFAULT_CONFIG ctxBalanceWarn =
    { check := "Daily Limit Check", result := StepResult.pass,
      detail := "Daily spending OK", weight := 0.7 } := by
  rw [checkDailyLimit]
  rw [if_neg (by norm_num [ctxBalanceWarn, DEFAULT_CONFIG]),
    if_neg (by norm_num [ctxBalanceWarn, DEFAULT_CONFIG])]

lemma ctxBalanceWarn_balance : checkBalance DEFAULT_CONFIG ctxBalanceWarn =
    { check := "Balance Check", result := StepResult.warn,
      detail := "Low balance warning", weight := 0.8 } := by
  rw [checkBalance]
  rw [if_neg (by norm_num [ctxBalanceWarn]),
    if_pos (by norm_num [ctxBalanceWarn, DEFAULT_CONFIG])]

lemma ctxBalanceWarn_rate :
    (checkOrderFrequency DEFAULT_CONFIG 0 ctxBalanceWarn emptyHistory).1 =
    { check := "Rate Limit Check", result := StepResult.pass,
      detail := "Order frequency OK", weight := 0.5 } := by
  rw [checkOrderFrequency]
  rw [if_neg (by norm_num [ctxBalanceWarn, DEFAULT_CONFIG]),
    if_neg (by norm_num [ctxBalanceWarn, DEFAULT_CONFIG])]

lemma ctxBalanceWarn_hours : checkBusinessHours DEFAULT_CONFIG ctxBalanceWarn =
    { check := "Business Hours Check", result := StepResult.pass,
      detail := "Order placed during business hours", weight := 0.3 } := by
  rw [checkBusinessHours, if_neg (by decide)]

/-- Counterexample for C1 as claimed: at the balance-warn context the
engine returns confidence 0.8, while the claimed formula (warn scores
half weight on all six steps) gives 0.9. -/
theorem confidence_formula_cex :
    (evaluate DEFAULT_CONFIG ctxBalanceWarn 0 emptyHistory).1.confidence = 0.8 ∧
    specConfidence claimedStepScore
        (evaluate DEFAULT_CONFIG ctxBalanceWarn 0 emptyHistory).1.reasoning = 0.9 ∧
    (evaluate DEFAULT_CONFIG ctxBalanceWarn 0 emptyHistory).1.confidence
      ≠ specConfidence claimedStepScore
          (evaluate DEFAULT_CONFIG ctxBalanceWarn 0 emptyHistory).1.reasoning := by
  have h1 : (evaluate DEFAULT_CONFIG ctxBalanceWarn 0 emptyHistory).1.confidence
      = 0.8 := by
    simp only [evaluate]
    rw [ctxBalanceWarn_intent, ctxBalanceWarn_amount, ctxBalanceWarn_daily,
      ctxBalanceWarn_balance, ctxBalanceWarn_rate, ctxBalanceWarn_hours]
    norm_num [scoreOf]
    rw [if_neg (show ¬(StepResult.warn = StepResult.pass) from by decide)]
    rw [show ((12 : ℚ) / 5 + 0 + 1 / 2 + 3 / 10) / 4 = 4 / 5 from by norm_num]
    exact jsRound2_mul100_int (4 / 5) 80 (by norm_num)
  have h2 : specConfidence claimedStepScore
      (evaluate DEFAULT_CONFIG ctxBalanceWarn 0 emptyHistory).1.reasoning = 0.9 := by
    have hreason : (evaluate DEFAULT_CONFIG ctxBalanceWarn 0 emptyHistory).1.reasoning
        = [{ check := "Intent Validation", result := StepResult.pass,
             detail := "Intent is valid for payment processing", weight := 0.8 },
           { check := "Amount Validation", result := StepResult.pass,
             detail := "Amount is within acceptable range", weight := 0.9 },
           { check := "Daily Limit Check", result := StepResult.pass,
             detail := "Daily spending OK", weight := 0.7 },
           { check := "Balance Check", result := StepResult.warn,
             detail := "Low balance warning", weight := 0.8 },
           { check := "Rate Limit Check", result := StepResult.pass,
             detail := "Order frequency OK", weight := 0.5 },
           { check := "Business Hours Check", result := StepResult.pass,
             detail := "Order placed during business hours", weight := 0.3 }] := by
      simp only [evaluate]
      rw [ctxBalanceWarn_intent, ctxBalanceWarn_amount, ctxBalanceWarn_daily,
        ctxBalanceWarn_balance, ctxBalanceWarn_rate, ctxBalanceWarn_hours]
    rw [hreason]
    simp only [specConfidence, List.map_cons, List.map_nil, List.sum_cons,
      List.sum_nil, claimedStepScore]
    norm_num
    exact jsRound2_mul100_int (9 / 10) 90 (by norm_num)
  exact ⟨h1, h2, by rw [h1, h2]; norm_num⟩

lemma reception_process_order (signOk : Bool) (m : AgentMessage) :
    ((ReceptionAgent.process signOk m).1).order = m.order := by
  cases hv : validateOrder m.order with
  | mk b reason => cases b <;> cases signOk <;> simp [ReceptionAgent.process, hv]

/-- A pipeline result credits the ledger with exactly the given price
precisely when its terminal status is COMPLETED. -/
def commitsSpec (price : ℚ) (r : PipelineResult) : Prop :=
  r.commits = if r.finalStatus = some OrderStatus.completed then [price] else []

lemma runFromApproval_commitsSpec (policy : ApprovalPolicy) (sA sP : Bool)
    (tr : TransferResult) (thr : String) (now : ℤ) (ai : AIDecisionResult)
    (msg : AgentMessage) (st : OrchState) :
    commitsSpec msg.order.price (runFromApproval policy sA sP tr thr now ai msg st).1 := by
  simp only [runFromApproval]
  split_ifs <;> simp_all [commitsSpec, mkEnhanced, PipelineResult.finalStatus]

/-- C2.  In a pipeline run, recordSpending is invoked exactly once, with
the order price, precisely when the run terminates COMPLETED: rejected
and failed runs, and requests the engine rejects or asks to confirm,
produce no commit. -/
theorem processOrderWithAI_commit_iff_completed (cfg : AIEngineConfig)
    (policy : ApprovalPolicy) (orderId : String) (req : IntentOrderRequest)
    (merchantAddress : String) (now : ℤ) (ext : Externals) (st : OrchState) :
    (processOrderWithAI cfg policy orderId req merchantAddress now ext st).1.commits
      = if (processOrderWithAI cfg policy orderId req merchantAddress now ext st).1.finalStatus
          = some OrderStatus.completed
        then [req.price] else [] := by
  show commitsSpec req.price
    (processOrderWithAI cfg policy orderId req merchantAddress now ext st).1
  simp only [processOrderWithAI]
  split_ifs with hrej hconf hthrew hrcrej
  · simp [commitsSpec, PipelineResult.finalStatus]
  · simp [commitsSpec, PipelineResult.finalStatus]
  · simp [commitsSpec, mkEnhanced, PipelineResult.finalStatus]
  · simp [commitsSpec, mkEnhanced, PipelineResult.finalStatus, hrcrej]
  · convert runFromApproval_commitsSpec policy ext.signApproval ext.signPayment
      ext.transfer ext.thrownMessage now _ _ _ using 2
    rw [reception_process_order]

/-- C7.  A message whose preceding agent is not Reception is refused by
the Approval stage: the run ends REJECTED with the pipeline-integrity
error, no Payment stage record is produced, no spending is committed,
and the orchestrator state is untouched. -/
theorem approval_integrity_halts (policy : ApprovalPolicy) (sA sP : Bool)
    (tr : TransferResult) (thr : String) (now : ℤ) (ai : AIDecisionResult)
    (msg : AgentMessage) (st : OrchState)
    (hprev : msg.previousAgent ≠ some AgentRole.reception)
    (hpay : msg.pipeline.payment = none) :
    ∃ m, (runFromApproval policy sA sP tr thr now ai msg st).1.finalMsg = some m
      ∧ m.status = OrderStatus.rejected
      ∧ m.error = some "Invalid processing pipeline"
      ∧ m.pipeline.payment = none
      ∧ (runFromApproval policy sA sP tr thr now ai msg st).1.commits = []
      ∧ (runFromApproval policy sA sP tr thr now ai msg st).2 = st := by
  simp only [runFromApproval, ApprovalAgent.process]
  rw [if_pos hprev]
  simp [mkEnhanced, hpay]

/-! Supporting concrete values. -/

def sampleOrder : CoffeeOrder :=
  { id := "ORD-1", item := "latte", price := 0.03, currency := "USDT",
    merchantAddress := "0xmerchant", userAddress := "0xuser", timestamp := 0 }

def policy1 : ApprovalPolicy :=
  { approvalThreshold := 0.5, maxSinglePayment := 1, maxDailySpending := 10 }

def trOk : TransferResult := { success := true, txHash := some "0xhash" }

def aiSample : AIDecisionResult :=
  { decision := .approve, confidence := 1, riskLevel := .low, reasoning := [] }

/-- A message reaching Payment whose preceding agent is Reception, not
Approval. -/
def msgToPayment : AgentMessage :=
  { orderId := "ORD-1", order := sampleOrder, status := OrderStatus.approved,
    pipeline := {}, previousAgent := some AgentRole.reception }

/-- A message reaching Approval whose preceding agent is Payment, not
Reception. -/
def msgBadToApproval : AgentMessage :=
  { orderId := "ORD-2", order := sampleOrder,
    status := OrderStatus.pendingApproval,
    pipeline := {}, previousAgent := some AgentRole.payment }

/-- Witness for C7 at concrete inputs. -/
theorem approval_integrity_halts_witness :
    msgBadToApproval.previousAgent ≠ some AgentRole.reception
    ∧ msgBadToApproval.pipeline.payment = none
    ∧ ∃ m, (runFromApproval policy1 true true trOk "err" 0 aiSample
          msgBadToApproval ⟨⟨0, 0⟩, emptyHistory⟩).1.finalMsg = some m
      ∧ m.status = OrderStatus.rejected
      ∧ m.error = some "Invalid processing pipeline"
      ∧ m.pipeline.payment = none
      ∧ (runFromApproval policy1 true true trOk "err" 0 aiSample
          msgBadToApproval ⟨⟨0, 0⟩, emptyHistory⟩).1.commits = []
      ∧ (runFromApproval policy1 true true trOk "err" 0 aiSample
          msgBadToApproval ⟨⟨0, 0⟩, emptyHistory⟩).2 = ⟨⟨0, 0⟩, emptyHistory⟩ := by
  have h1 : msgBadToApproval.previousAgent ≠ some AgentRole.reception := by decide
  have h2 : msgBadToApproval.pipeline.payment = none := rfl
  exact ⟨h1, h2, approval_integrity_halts policy1 true true trOk "err" 0 aiSample
    msgBadToApproval ⟨⟨0, 0⟩, emptyHistory⟩ h1 h2⟩

/-- Counterexample for C6 as claimed: a run reaching Payment from the
wrong preceding agent is given terminal status FAILED, not REJECTED. -/
theorem payment_integrity_status_cex :
    msgToPayment.previousAgent ≠ some AgentRole.approval ∧
    (PaymentAgent.process true trOk msgToPayment).1.status = OrderStatus.failed ∧
    (PaymentAgent.process true trOk msgToPayment).1.status ≠ OrderStatus.rejected := by
  have h : msgToPayment.previousAgent ≠ some AgentRole.approval := by decide
  rw [PaymentAgent.process, if_pos h]
  exact ⟨h, rfl, by decide⟩

/-- C6 (amended).  A preceding-agent mismatch is fatal to the run in both
stages, the stage halting at once with a terminal status and no ledger
effect; Approval sets the status to REJECTED, while Payment sets it to
FAILED. -/
theorem integrity_mismatch_fatal :
    (∀ (signOk : Bool) (policy : ApprovalPolicy) (now : ℤ)
        (msg : AgentMessage) (st : LedgerState),
      msg.previousAgent ≠ some AgentRole.reception →
        (ApprovalAgent.process signOk policy now msg st).1.1.status
            = OrderStatus.rejected
        ∧ (ApprovalAgent.process signOk policy now msg st).1.2 = false
        ∧ (ApprovalAgent.process signOk policy now msg st).2 = st)
    ∧ (∀ (signOk : Bool) (tr : TransferResult) (msg : AgentMessage),
      msg.previousAgent ≠ some AgentRole.approval →
        (PaymentAgent.process signOk tr msg).1.status = OrderStatus.failed
        ∧ (PaymentAgent.process signOk tr msg).2 = false) := by
  constructor
  · intro signOk policy now msg st h
    rw [ApprovalAgent.process, if_pos h]
    exact ⟨rfl, rfl, rfl⟩
  · intro signOk tr msg h
    rw [PaymentAgent.process, if_pos h]
    exact ⟨rfl, rfl⟩

/-- Witness for the amended C6 at concrete inputs. -/
theorem integrity_mismatch_fatal_witness :
    (msgBadToApproval.previousAgent ≠ some AgentRole.reception
      ∧ (ApprovalAgent.process true policy1 0 msgBadToApproval ⟨0, 0⟩).1.1.status
          = OrderStatus.rejected
      ∧ (ApprovalAgent.process true policy1 0 msgBadToApproval ⟨0, 0⟩).1.2 = false
      ∧ (ApprovalAgent.process true policy1 0 msgBadToApproval ⟨0, 0⟩).2 = ⟨0, 0⟩)
    ∧ (msgToPayment.previousAgent ≠ some AgentRole.approval
      ∧ (PaymentAgent.process true trOk msgToPayment).1.status = OrderStatus.failed
      ∧ (PaymentAgent.process true trOk msgToPayment).2 = false) := by
  have h1 : msgBadToApproval.previousAgent ≠ some AgentRole.reception := by decide
  have h2 : msgToPayment.previousAgent ≠ some AgentRole.approval := by decide
  exact ⟨⟨h1, integrity_mismatch_fatal.1 true policy1 0 msgBadToApproval ⟨0, 0⟩ h1⟩,
    ⟨h2, integrity_mismatch_fatal.2 true trOk msgToPayment h2⟩⟩

/-- Counterexample for C3 as claimed: committing 5 on behalf of alice
changes the spend snapshot bob observes from 0 to 5, because the daily
ledger is one shared accumulator, not partitioned by identity. -/
theorem spend_ledger_shared_cex :
    ("alice" : String) ≠ "bob"
    ∧ (snapshotForIdentity "bob" 0 { dailySpending := 0, lastResetTime := 0 }).1 = 0
    ∧ (snapshotForIdentity "bob" 0
        (commitSpendingFor "alice" 0 5 { dailySpending := 0, lastResetTime := 0 })).1 = 5
    ∧ (snapshotForIdentity "bob" 0
        (commitSpendingFor "alice" 0 5 { dailySpending := 0, lastResetTime := 0 })).1
      ≠ (snapshotForIdentity "bob" 0 { dailySpending := 0, lastResetTime := 0 }).1 := by
  refine ⟨by decide, ?_, ?_, ?_⟩ <;>
    norm_num [snapshotForIdentity, commitSpendingFor, getCurrentDailySpending,
      recordSpending, checkAndResetDailySpending, DAY_IN_MS]

/-- C3 (amended).  Frequency tracking is partitioned per identity:
recording an attempt for one identity leaves every other identity's
history and recent-order count unchanged.  Spend accounting is not: the
rolling-window snapshot is one shared value, identical for all
identities (and hence moved for everyone by any commit). -/
theorem frequency_partitioned_spend_shared :
    (∀ (i j : String) (now : ℤ) (st : EngineState), i ≠ j →
      (recordOrder now i st).orderHistory j = st.orderHistory j
      ∧ getRecentOrderCount now (recordOrder now i st) j
          = getRecentOrderCount now st j)
    ∧ ∀ (i j : String) (now : ℤ) (st : LedgerState),
        snapshotForIdentity i now st = snapshotForIdentity j now st := by
  constructor
  · intro i j now st hij
    have h : (recordOrder now i st).orderHistory j = st.orderHistory j := by
      simp [recordOrder, Ne.symm hij]
    refine ⟨h, ?_⟩
    simp only [getRecentOrderCount]
    rw [h]
  · intro i j now st
    rfl

/-- Witness for the amended C3 at concrete identities. -/
theorem frequency_partitioned_spend_shared_witness :
    ("alice" : String) ≠ "bob"
    ∧ (recordOrder 0 "alice" emptyHistory).orderHistory "bob"
        = emptyHistory.orderHistory "bob"
    ∧ getRecentOrderCount 0 (recordOrder 0 "alice" emptyHistory) "bob"
        = getRecentOrderCount 0 emptyHistory "bob" := by
  have hne : ("alice" : String) ≠ "bob" := by decide
  obtain ⟨ha, hb⟩ := frequency_partitioned_spend_shared.1 "alice" "bob" 0 emptyHistory hne
  exact ⟨hne, ha, hb⟩

end CoffeeDemo
